import Mathlib

/-!
# Tile reprocessing coordinator (`main.go`)

A shallow embedding of the polling loop of `main.go` (lines 117-227) together with
the two SQL statements it issues against `tiles_to_redraw` and the prepared
statement on `agg_zoom_19`.

Conventions of the embedding.

* Go `int` values (tile indices, zoom levels, configuration numbers) are `Int`
  values; Go's `int` is 64 bits wide and its arithmetic wraps around. The arguments
  `x-1`, `x+1`, `y-1`, `y+1` of the delete statement (main.go:151) are computed with
  that wrap-around, `wrapInt64`.
* The padded corner tiles (main.go:176-177) go straight into the projection, whose
  results are taken exactly; `x-2`, `x+3`, `y-2`, `y+3` are computed exactly together
  with it. They are Go's values whenever these four numbers are inside the 64-bit
  range.
* Timestamps (`last_queued`, `NOW()`) are seconds on an integer time line.
* The two tables are lists of rows; a `SELECT ... WHERE` is a `filter`, `ORDER BY`
  is a stable sort, `LIMIT 1` is `take 1`, `DELETE ... WHERE` keeps the rows that do
  not match.
* What the outside world does during one iteration (the value of `NOW()`, whether a
  store call returns an error) is an explicit input, `CycleEnv`.
* Everything the iteration does to the outside world is recorded, in program order,
  in a list of `Effect`s.
-/

namespace HeatmapTileGenerator

/-! ## Data model -/

/-- The fields of `Configuration` (main.go:18-37) that the loop reads. The directory
names, the MySQL connection parameters and the Prometheus port do not influence the
loop and are left out. -/
structure Configuration where
  SleepDuration : String
  LastQueuedWindow : Int
  MinZoomLevel : Int
  MaxZoomLevel : Int
  FileWriterThreads : Int
deriving DecidableEq, Repr

/-- The defaults of main.go:39-58. -/
def myConfiguration : Configuration :=
  { SleepDuration := "10s"
    LastQueuedWindow := 1
    MinZoomLevel := 1
    MaxZoomLevel := 19
    FileWriterThreads := 4 }

/-- Modelled from the spec: `types.MysqlTileToRedraw`, whose declaration is in the
`types` package and not in `main.go`. A row of `tiles_to_redraw`: the spec's
TileRedrawRequest (x, y, zoom, queuedAt) plus the `id` column that the commented-out
statement of main.go:106 refers to. -/
structure MysqlTileToRedraw where
  Id : Int
  X : Int
  Y : Int
  Z : Int
  LastQueued : Int
deriving DecidableEq, Repr

/-- Modelled from the spec: `types.MysqlAggGridcell`, whose declaration is in the
`types` package and not in `main.go`. A row of `agg_zoom_19`: the spec's AggregateCell,
tile indices at zoom 19; `Id` stands for the remaining (metric) columns. -/
structure MysqlAggGridcell where
  Id : Int
  X : Int
  Y : Int
deriving DecidableEq, Repr

/-- The two tables the loop works on. -/
structure Store where
  tiles_to_redraw : List MysqlTileToRedraw
  agg_zoom_19 : List MysqlAggGridcell
deriving DecidableEq, Repr

/-! ## Slippy-map projection (`gosm`), taken exactly -/

/-- Modelled from the spec: `gosm.Tile`, of the external package `github.com/j4/gosm`.
The projection is taken exactly, in rational arithmetic instead of `float64`.
`Long` is the longitude in degrees. `Lat` carries the latitude as its Mercator
ordinate in units of pi, `asinh (tan lat) / pi`: `Num2deg` computes the latitude as
`atan (sinh n)` and `Deg2num` reads it back through `log (tan lat + 1 / cos lat)`,
and the two are inverse to each other on the reals, so the ordinate `n / pi`
determines the latitude and is all that `Deg2num` uses of it. -/
structure Tile where
  Z : Int
  X : Int
  Y : Int
  Lat : ℚ
  Long : ℚ
deriving DecidableEq

/-- Modelled from the spec: `(*Tile).Num2deg` of `gosm`, the geographic coordinates of
the north-west corner of tile (X, Y) at zoom Z:
`n = pi - 2 pi Y / 2^Z` (returned in units of pi) and `long = X / 2^Z * 360 - 180`. -/
def Num2deg (X Y Z : Int) : ℚ × ℚ :=
  let n : ℚ := 1 - 2 * (Y : ℚ) / (2 : ℚ) ^ Z
  let long : ℚ := (X : ℚ) / (2 : ℚ) ^ Z * 360 - 180
  (n, long)

/-- Modelled from the spec: `(*Tile).Deg2num` of `gosm`, the tile at zoom Z that
contains a geographic position:
`x = floor ((long + 180) / 360 * 2^Z)` and
`y = floor ((1 - asinh (tan lat) / pi) / 2 * 2^Z)`. No clamping is applied. -/
def Deg2num (lat long : ℚ) (Z : Int) : Int × Int :=
  let x : Int := ⌊(long + 180) / 360 * (2 : ℚ) ^ Z⌋
  let y : Int := ⌊(1 - lat) / 2 * (2 : ℚ) ^ Z⌋
  (x, y)

/-- Modelled from the spec: `gosm.NewTileWithXY`. -/
def NewTileWithXY (x y zoom : Int) : Tile :=
  let ll := Num2deg x y zoom
  { Z := zoom, X := x, Y := y, Lat := ll.1, Long := ll.2 }

/-- Modelled from the spec: `gosm.NewTileWithLatLong`. -/
def NewTileWithLatLong (lat long : ℚ) (zoom : Int) : Tile :=
  let xy := Deg2num lat long zoom
  { Z := zoom, X := xy.1, Y := xy.2, Lat := lat, Long := long }

/-! ## The statements sent to the store -/

/-- The `WHERE` clause of main.go:124:
`last_queued < (NOW() - INTERVAL ? SECOND) AND z>=? AND z<=?`. -/
def eligible (cfg : Configuration) (now : Int) (r : MysqlTileToRedraw) : Bool :=
  decide (r.LastQueued < now - cfg.LastQueuedWindow) &&
    (decide (r.Z ≥ cfg.MinZoomLevel) && decide (r.Z ≤ cfg.MaxZoomLevel))

/-- The `ORDER BY last_queued ASC` of main.go:124. -/
def lastQueuedAsc (a b : MysqlTileToRedraw) : Prop := a.LastQueued ≤ b.LastQueued

instance : DecidableRel lastQueuedAsc := fun a b =>
  inferInstanceAs (Decidable (a.LastQueued ≤ b.LastQueued))

/-- The query of main.go:123-127 when it succeeds:
`SELECT * FROM tiles_to_redraw WHERE ... ORDER BY last_queued ASC LIMIT 1`. -/
def selectTilesToReprocess (cfg : Configuration) (now : Int)
    (queue : List MysqlTileToRedraw) : List MysqlTileToRedraw :=
  (List.insertionSort lastQueuedAsc (queue.filter (eligible cfg now))).take 1

/-- The value a Go `int` expression takes when its exact result is `v`: the 64-bit
two's complement wrap-around into [-2^63, 2^63). -/
def wrapInt64 (v : Int) : Int :=
  (v + 2 ^ 63) % 2 ^ 64 - 2 ^ 63

/-- The `WHERE` clause of main.go:151, `x>=? AND x<=? AND y>=? AND y<=? AND z=?`,
with the five arguments in the order they are passed. -/
def deleteMatches (xLo xHi yLo yHi z : Int) (r : MysqlTileToRedraw) : Bool :=
  decide (r.X ≥ xLo) && (decide (r.X ≤ xHi) &&
    (decide (r.Y ≥ yLo) && (decide (r.Y ≤ yHi) && decide (r.Z = z))))

/-- The statement of main.go:151 when it succeeds: the rows that remain. -/
def deleteTilesToRedraw (xLo xHi yLo yHi z : Int)
    (queue : List MysqlTileToRedraw) : List MysqlTileToRedraw :=
  queue.filter (fun r => !deleteMatches xLo xHi yLo yHi z r)

/-- The named arguments of main.go:184. -/
structure AggCoords where
  xNw : Int
  yNw : Int
  xSe : Int
  ySe : Int
deriving DecidableEq, Repr

/-- Lines 175-184 of main.go: the padded corner tiles at the claimed zoom, and the
zoom-19 tiles of their north-west corners. -/
def aggCoords (x y z : Int) : AggCoords :=
  let tileNWpad := NewTileWithXY (x - 2) (y - 2) z
  let tileSEpad := NewTileWithXY (x + 3) (y + 3) z
  let tileNW19 := NewTileWithLatLong tileNWpad.Lat tileNWpad.Long 19
  let tileSE19 := NewTileWithLatLong tileSEpad.Lat tileSEpad.Long 19
  { xNw := tileNW19.X, yNw := tileNW19.Y, xSe := tileSE19.X, ySe := tileSE19.Y }

/-- The `WHERE` clause of main.go:100, `x >= :xNw AND y >= :yNw AND x < :xSe AND y < :ySe`. -/
def aggMatches (c : AggCoords) (e : MysqlAggGridcell) : Bool :=
  decide (e.X ≥ c.xNw) && (decide (e.Y ≥ c.yNw) &&
    (decide (e.X < c.xSe) && decide (e.Y < c.ySe)))

/-- The prepared statement of main.go:100 when it succeeds. -/
def stmtSelectAggData (c : AggCoords) (agg : List MysqlAggGridcell) :
    List MysqlAggGridcell :=
  agg.filter (aggMatches c)

/-! ## One iteration of the loop -/

/-- The lines written with `log.Printf`; elapsed times are not modelled. -/
inductive LogLine
  | error (msg : String)
  | deletedRows (n : Int)
  | generatingTile (z x y : Int)
  | dbSelectTook
  | usingPoints (n : Nat)
  | globalTileTook
  | gatewayCountTileTook
  | fowTileTook
  | tileTook
deriving DecidableEq, Repr

/-- What one iteration does to the outside world, in program order. -/
inductive Effect
  /-- `db.Select` of main.go:123 with its three arguments. -/
  | dbSelect (window minZoom maxZoom : Int)
  /-- `fmt.Println(err)` of main.go:129. -/
  | fmtPrintln (err : String)
  /-- `time.Sleep(sleepDuration)` of main.go:135. -/
  | timeSleep (d : Int)
  /-- `db.Exec` of main.go:151 with its five arguments. -/
  | dbExecDelete (xLo xHi yLo yHi z : Int)
  /-- `stmtSelectAggData.Queryx(aggCoords)` of main.go:188. -/
  | queryAggData (c : AggCoords)
  /-- `drawGlobalTile` of main.go:206. -/
  | drawGlobalTile (x y z : Int) (entries : List MysqlAggGridcell)
  /-- `drawGatewayCountTile` of main.go:216. -/
  | drawGatewayCountTile (x y z : Int) (entries : List MysqlAggGridcell)
  /-- `drawFogOfWarTile` of main.go:221. -/
  | drawFogOfWarTile (x y z : Int) (entries : List MysqlAggGridcell)
  /-- A `log.Printf` line. -/
  | log (l : LogLine)
  /-- `log.Fatal` of main.go:114. -/
  | logFatal (err : String)
  /-- The run-time panic of a method call on a nil result. -/
  | nilPanic
deriving DecidableEq, Repr

/-- How an iteration ends. -/
inductive Outcome
  /-- The `for` loop goes on with its next iteration. -/
  | nextIteration
  /-- `main` returned (main.go:130) or the process exited (main.go:114). -/
  | mainReturned
  /-- The process stopped with a run-time panic. -/
  | panicked
deriving DecidableEq, Repr

/-- What the outside world does during one iteration: the value of `NOW()` seen by
the claim query, and for each of the three store calls whether it returns an error. -/
structure CycleEnv where
  now : Int
  selectErr : Option String
  deleteErr : Option String
  queryErr : Option String
deriving DecidableEq, Repr

/-- The store, the effects and the outcome after an iteration (or a run). -/
structure Result where
  db : Store
  trace : List Effect
  outcome : Outcome
deriving DecidableEq, Repr

/-- One iteration of the `for` loop, main.go:117-227.

The arguments of the delete, `x-1`, `x+1`, `y-1`, `y+1`, are Go `int` expressions
and wrap around at 64 bits. A store call that returns an error leaves its table
unchanged and returns a nil result next to the error (`database/sql` and `sqlx` return
`nil, err`), so the method calls of main.go:156 and main.go:192 on that result panic. -/
def cycle (cfg : Configuration) (sleepDuration : Int) (env : CycleEnv) (db : Store) :
    Result :=
  let select := Effect.dbSelect cfg.LastQueuedWindow cfg.MinZoomLevel cfg.MaxZoomLevel
  match env.selectErr with
  | some err => { db := db, trace := [select, .fmtPrintln err], outcome := .mainReturned }
  | none =>
    match selectTilesToReprocess cfg env.now db.tiles_to_redraw with
    | [] => { db := db, trace := [select, .timeSleep sleepDuration], outcome := .nextIteration }
    | tileToProcess :: _ =>
      let x := tileToProcess.X
      let y := tileToProcess.Y
      let z := tileToProcess.Z
      let xLo := wrapInt64 (x - 1)
      let xHi := wrapInt64 (x + 1)
      let yLo := wrapInt64 (y - 1)
      let yHi := wrapInt64 (y + 1)
      let delete := Effect.dbExecDelete xLo xHi yLo yHi z
      match env.deleteErr with
      | some err =>
        { db := db
          trace := [select, delete, .log (.error err), .nilPanic]
          outcome := .panicked }
      | none =>
        let queue := deleteTilesToRedraw xLo xHi yLo yHi z db.tiles_to_redraw
        let rowsAffected : Int := (db.tiles_to_redraw.length : Int) - (queue.length : Int)
        let db1 : Store := { db with tiles_to_redraw := queue }
        let c := aggCoords x y z
        let upToQuery : List Effect :=
          [select, delete, .log (.deletedRows rowsAffected), .log (.generatingTile z x y),
            .queryAggData c]
        match env.queryErr with
        | some err =>
          { db := db1
            trace := upToQuery ++ [.log (.error err), .nilPanic]
            outcome := .panicked }
        | none =>
          let entries := stmtSelectAggData c db1.agg_zoom_19
          { db := db1
            trace := upToQuery ++
              [.log .dbSelectTook, .log (.usingPoints entries.length),
                .drawGlobalTile x y z entries, .log .globalTileTook,
                .drawGatewayCountTile x y z entries, .log .gatewayCountTileTook,
                .drawFogOfWarTile x y z entries, .log .fowTileTook,
                .log .tileTook]
            outcome := .nextIteration }

/-- The `for` loop of main.go:117, run against the given iterations of the outside
world, one `CycleEnv` per iteration. When the list is used up the loop is still
running (`nextIteration`). -/
def loop (cfg : Configuration) (sleepDuration : Int) : List CycleEnv → Store → Result
  | [], db => { db := db, trace := [], outcome := .nextIteration }
  | env :: rest, db =>
    let r := cycle cfg sleepDuration env db
    match r.outcome with
    | .nextIteration =>
      let r' := loop cfg sleepDuration rest r.db
      { db := r'.db, trace := r.trace ++ r'.trace, outcome := r'.outcome }
    | _ => r

/-- Lines 112-228 of main.go: `time.ParseDuration` (a parameter, it is the Go standard
library's) is applied once to the configured `SleepDuration`, then the loop runs. -/
def main (parseDuration : String → Except String Int) (cfg : Configuration)
    (envs : List CycleEnv) (db : Store) : Result :=
  match parseDuration cfg.SleepDuration with
  | .error err => { db := db, trace := [.logFatal err], outcome := .mainReturned }
  | .ok sleepDuration => loop cfg sleepDuration envs db

/-- The store calls and render calls among the effects (not the log lines, the
sleep, the printed error or the panic). -/
def Effect.isCall : Effect → Bool
  | .dbSelect _ _ _ => true
  | .dbExecDelete _ _ _ _ _ => true
  | .queryAggData _ => true
  | .drawGlobalTile _ _ _ _ => true
  | .drawGatewayCountTile _ _ _ _ => true
  | .drawFogOfWarTile _ _ _ _ => true
  | _ => false

/-- The configuration of the scenarios: the defaults with a minimum age of one minute. -/
def scenarioConfiguration : Configuration :=
  { myConfiguration with LastQueuedWindow := 60 }

/-- The store of the scenarios at time 1000: (10,10,12) queued 5 minutes ago and
(11,10,12) queued 3 minutes ago, and three aggregate cells. -/
def scenarioStore : Store :=
  { tiles_to_redraw := [⟨1, 10, 10, 12, 700⟩, ⟨2, 11, 10, 12, 820⟩]
    agg_zoom_19 := [⟨1, 1280, 1300⟩, ⟨2, 1023, 1300⟩, ⟨3, 1664, 1300⟩] }

instance : IsTotal MysqlTileToRedraw lastQueuedAsc :=
  ⟨fun a b => Int.le_total a.LastQueued b.LastQueued⟩

instance : IsTrans MysqlTileToRedraw lastQueuedAsc :=
  ⟨fun _ _ _ h1 h2 => Int.le_trans h1 h2⟩

theorem Deg2num_Num2deg (a b z t : Int) :
    Deg2num (Num2deg a b z).1 (Num2deg a b z).2 t =
      (⌊(a : ℚ) / (2 : ℚ) ^ z * (2 : ℚ) ^ t⌋, ⌊(b : ℚ) / (2 : ℚ) ^ z * (2 : ℚ) ^ t⌋) := by
  simp only [Deg2num, Num2deg]
  congr 2 <;> ring

theorem aggCoords_eq (x y z : Int) :
    aggCoords x y z =
      { xNw := ⌊((x - 2 : Int) : ℚ) / (2 : ℚ) ^ z * (2 : ℚ) ^ (19 : Int)⌋
        yNw := ⌊((y - 2 : Int) : ℚ) / (2 : ℚ) ^ z * (2 : ℚ) ^ (19 : Int)⌋
        xSe := ⌊((x + 3 : Int) : ℚ) / (2 : ℚ) ^ z * (2 : ℚ) ^ (19 : Int)⌋
        ySe := ⌊((y + 3 : Int) : ℚ) / (2 : ℚ) ^ z * (2 : ℚ) ^ (19 : Int)⌋ } := by
  simp only [aggCoords, NewTileWithXY, NewTileWithLatLong, Deg2num_Num2deg]

theorem floor_scale_up (a : Int) (n : ℕ) (hn : n ≤ 19) :
    ⌊(a : ℚ) / (2 : ℚ) ^ (n : Int) * (2 : ℚ) ^ (19 : Int)⌋ = a * 2 ^ (19 - n) := by
  have h : (a : ℚ) / (2 : ℚ) ^ (n : Int) * (2 : ℚ) ^ (19 : Int) = ((a * 2 ^ (19 - n) : Int) : ℚ) := by
    have h19 : (19 : ℕ) = (19 - n) + n := by omega
    have : ((2 : ℚ) ^ (19 : Int)) = (2 : ℚ) ^ (19 - n) * (2 : ℚ) ^ n := by
      rw [← pow_add, ← h19]; norm_cast
    rw [this, zpow_natCast]
    push_cast
    field_simp
    ring
  rw [h, Int.floor_intCast]

theorem aggCoords_le19 (x y : Int) (n : ℕ) (hn : n ≤ 19) :
    aggCoords x y (n : Int) =
      { xNw := (x - 2) * 2 ^ (19 - n), yNw := (y - 2) * 2 ^ (19 - n)
        xSe := (x + 3) * 2 ^ (19 - n), ySe := (y + 3) * 2 ^ (19 - n) } := by
  rw [aggCoords_eq]
  simp only [floor_scale_up _ n hn]

/-! ## Claims on the padded bounding box and the aggregate query -/

/-- Counterexample to C1: for the claimed tile (0, 0, 5) the north-west corner passed to
the aggregate query is (-32768, -32768); the padded indices are not clamped to 0. -/
theorem c1_counterexample :
    (aggCoords 0 0 5).xNw = -32768 ∧ (aggCoords 0 0 5).yNw = -32768 ∧
      ¬ (0 ≤ (aggCoords 0 0 5).xNw ∧ 0 ≤ (aggCoords 0 0 5).yNw) := by
  have h := aggCoords_le19 0 0 5 (by decide)
  norm_num at h
  rw [h]
  decide

/-- C1, amended. For a claimed tile (x, y, z) with 0 <= z <= 19, 0 <= x < 2^z and
0 <= y < 2^z the corners passed to the aggregate query are the unclamped indices
(x-2) * 2^(19-z), (y-2) * 2^(19-z) and (x+3) * 2^(19-z), (y+3) * 2^(19-z). The
north-west corner is at most 2^19 - 1 and the south-east corner is at least 0 on both
axes; the north-west corner is at least 0 on an axis exactly when the tile index on that
axis is at least 2, and the south-east corner is at most 2^19 - 1 on an axis exactly
when the tile index plus 3 is below 2^z. -/
theorem padded_corners_unclamped (x y z : Int) (hz0 : 0 ≤ z) (hz : z ≤ 19)
    (hx0 : 0 ≤ x) (hx : x < 2 ^ z.toNat) (hy0 : 0 ≤ y) (hy : y < 2 ^ z.toNat) :
    (aggCoords x y z).xNw = (x - 2) * 2 ^ (19 - z.toNat) ∧
    (aggCoords x y z).yNw = (y - 2) * 2 ^ (19 - z.toNat) ∧
    (aggCoords x y z).xSe = (x + 3) * 2 ^ (19 - z.toNat) ∧
    (aggCoords x y z).ySe = (y + 3) * 2 ^ (19 - z.toNat) ∧
    (aggCoords x y z).xNw ≤ 2 ^ 19 - 1 ∧ (aggCoords x y z).yNw ≤ 2 ^ 19 - 1 ∧
    0 ≤ (aggCoords x y z).xSe ∧ 0 ≤ (aggCoords x y z).ySe ∧
    (0 ≤ (aggCoords x y z).xNw ↔ 2 ≤ x) ∧ (0 ≤ (aggCoords x y z).yNw ↔ 2 ≤ y) ∧
    ((aggCoords x y z).xSe ≤ 2 ^ 19 - 1 ↔ x + 3 < 2 ^ z.toNat) ∧
    ((aggCoords x y z).ySe ≤ 2 ^ 19 - 1 ↔ y + 3 < 2 ^ z.toNat) := by
  obtain ⟨n, rfl⟩ := Int.eq_ofNat_of_zero_le hz0
  have hn : n ≤ 19 := by exact_mod_cast hz
  simp only [Int.toNat_ofNat] at hx hy ⊢
  rw [aggCoords_le19 x y n hn]
  have hK : (0 : Int) < 2 ^ (19 - n) := by positivity
  have hprod : (2 : Int) ^ n * 2 ^ (19 - n) = 2 ^ 19 := by
    rw [← pow_add]; congr 1; omega
  have upper : ∀ a : Int, a < 2 ^ n → a * 2 ^ (19 - n) ≤ 2 ^ 19 - 1 := by
    intro a ha
    have h1 : a * 2 ^ (19 - n) < 2 ^ n * 2 ^ (19 - n) := mul_lt_mul_of_pos_right ha hK
    rw [hprod] at h1
    omega
  have upper_iff : ∀ a : Int, a * 2 ^ (19 - n) ≤ 2 ^ 19 - 1 ↔ a < 2 ^ n := by
    intro a
    constructor
    · intro h
      have h1 : a * 2 ^ (19 - n) < 2 ^ n * 2 ^ (19 - n) := by rw [hprod]; omega
      exact lt_of_mul_lt_mul_right h1 hK.le
    · exact upper a
  have lower_iff : ∀ a : Int, 0 ≤ a * 2 ^ (19 - n) ↔ 0 ≤ a := by
    intro a
    exact mul_nonneg_iff_of_pos_right hK
  refine ⟨rfl, rfl, rfl, rfl, upper _ (by omega), upper _ (by omega), ?_, ?_, ?_, ?_, ?_, ?_⟩
  · exact (lower_iff _).2 (by omega)
  · exact (lower_iff _).2 (by omega)
  · rw [lower_iff]; omega
  · rw [lower_iff]; omega
  · exact upper_iff _
  · exact upper_iff _

/-- Witness of C1 (amended) at the claimed tile (10, 10, 12). -/
theorem padded_corners_unclamped_witness :
    (aggCoords 10 10 12).xNw = (10 - 2) * 2 ^ (19 - (12 : Int).toNat) ∧
    (aggCoords 10 10 12).yNw = (10 - 2) * 2 ^ (19 - (12 : Int).toNat) ∧
    (aggCoords 10 10 12).xSe = (10 + 3) * 2 ^ (19 - (12 : Int).toNat) ∧
    (aggCoords 10 10 12).ySe = (10 + 3) * 2 ^ (19 - (12 : Int).toNat) ∧
    (aggCoords 10 10 12).xNw ≤ 2 ^ 19 - 1 ∧ (aggCoords 10 10 12).yNw ≤ 2 ^ 19 - 1 ∧
    0 ≤ (aggCoords 10 10 12).xSe ∧ 0 ≤ (aggCoords 10 10 12).ySe ∧
    (0 ≤ (aggCoords 10 10 12).xNw ↔ (2 : Int) ≤ 10) ∧
    (0 ≤ (aggCoords 10 10 12).yNw ↔ (2 : Int) ≤ 10) ∧
    ((aggCoords 10 10 12).xSe ≤ 2 ^ 19 - 1 ↔ (10 : Int) + 3 < 2 ^ (12 : Int).toNat) ∧
    ((aggCoords 10 10 12).ySe ≤ 2 ^ 19 - 1 ↔ (10 : Int) + 3 < 2 ^ (12 : Int).toNat) :=
  padded_corners_unclamped 10 10 12 (by decide) (by decide) (by decide) (by decide)
    (by decide) (by decide)


theorem eligible_iff (cfg : Configuration) (now : Int) (r : MysqlTileToRedraw) :
    eligible cfg now r = true ↔
      r.LastQueued < now - cfg.LastQueuedWindow ∧ cfg.MinZoomLevel ≤ r.Z ∧
        r.Z ≤ cfg.MaxZoomLevel := by
  simp [eligible]

theorem select_eq_nil_iff (cfg : Configuration) (now : Int) (queue : List MysqlTileToRedraw) :
    selectTilesToReprocess cfg now queue = [] ↔ ∀ r ∈ queue, eligible cfg now r = false := by
  unfold selectTilesToReprocess
  constructor
  · intro h r hr
    by_contra hne
    have hmem : r ∈ queue.filter (eligible cfg now) := by
      simp [List.mem_filter, hr, hne]
    have hmem' : r ∈ List.insertionSort lastQueuedAsc (queue.filter (eligible cfg now)) :=
      (List.perm_insertionSort lastQueuedAsc _).mem_iff.2 hmem
    cases hs : List.insertionSort lastQueuedAsc (queue.filter (eligible cfg now)) with
    | nil => rw [hs] at hmem'; simp at hmem'
    | cons a l => rw [hs] at h; simp at h
  · intro h
    have : queue.filter (eligible cfg now) = [] := by
      rw [List.filter_eq_nil_iff]
      intro a ha
      simp [h a ha]
    rw [this]
    rfl

theorem select_eq_cons (cfg : Configuration) (now : Int) (queue : List MysqlTileToRedraw)
    (r : MysqlTileToRedraw) (rest : List MysqlTileToRedraw)
    (h : selectTilesToReprocess cfg now queue = r :: rest) :
    rest = [] ∧ r ∈ queue ∧ eligible cfg now r = true ∧
      ∀ r' ∈ queue, eligible cfg now r' = true → r.LastQueued ≤ r'.LastQueued := by
  unfold selectTilesToReprocess at h
  have hsorted := List.sorted_insertionSort lastQueuedAsc (queue.filter (eligible cfg now))
  have hperm := List.perm_insertionSort lastQueuedAsc (queue.filter (eligible cfg now))
  cases hs : List.insertionSort lastQueuedAsc (queue.filter (eligible cfg now)) with
  | nil => rw [hs] at h; simp at h
  | cons a l =>
    rw [hs] at h hsorted hperm
    simp only [List.take_succ_cons, List.take_zero, List.cons.injEq] at h
    obtain ⟨rfl, rfl⟩ := h
    have ha : a ∈ queue.filter (eligible cfg now) :=
      hperm.mem_iff.1 (List.mem_cons_self _ _)
    rw [List.mem_filter] at ha
    refine ⟨rfl, ha.1, ha.2, ?_⟩
    intro r' hr' he'
    have hmem : r' ∈ a :: l := hperm.mem_iff.2 (List.mem_filter.2 ⟨hr', he'⟩)
    rcases List.mem_cons.1 hmem with rfl | hl
    · exact le_refl _
    · exact List.rel_of_sorted_cons hsorted r' hl


/-! ## The iteration, case by case -/

theorem cycle_selectErr (cfg : Configuration) (d : Int) (env : CycleEnv) (db : Store)
    (err : String) (hsel : env.selectErr = some err) :
    cycle cfg d env db =
      { db := db
        trace := [.dbSelect cfg.LastQueuedWindow cfg.MinZoomLevel cfg.MaxZoomLevel,
          .fmtPrintln err]
        outcome := .mainReturned } := by
  simp only [cycle, hsel]

theorem cycle_idle (cfg : Configuration) (d : Int) (env : CycleEnv) (db : Store)
    (hsel : env.selectErr = none)
    (hnone : selectTilesToReprocess cfg env.now db.tiles_to_redraw = []) :
    cycle cfg d env db =
      { db := db
        trace := [.dbSelect cfg.LastQueuedWindow cfg.MinZoomLevel cfg.MaxZoomLevel,
          .timeSleep d]
        outcome := .nextIteration } := by
  simp only [cycle, hsel, hnone]

theorem cycle_deleteErr (cfg : Configuration) (d : Int) (env : CycleEnv) (db : Store)
    (R : MysqlTileToRedraw) (rest : List MysqlTileToRedraw) (err : String)
    (hsel : env.selectErr = none)
    (hclaim : selectTilesToReprocess cfg env.now db.tiles_to_redraw = R :: rest)
    (hdel : env.deleteErr = some err) :
    cycle cfg d env db =
      { db := db
        trace := [.dbSelect cfg.LastQueuedWindow cfg.MinZoomLevel cfg.MaxZoomLevel,
          .dbExecDelete (wrapInt64 (R.X - 1)) (wrapInt64 (R.X + 1)) (wrapInt64 (R.Y - 1)) (wrapInt64 (R.Y + 1)) R.Z,
          .log (.error err), .nilPanic]
        outcome := .panicked } := by
  simp only [cycle, hsel, hclaim, hdel]

theorem cycle_queryErr (cfg : Configuration) (d : Int) (env : CycleEnv) (db : Store)
    (R : MysqlTileToRedraw) (rest : List MysqlTileToRedraw) (err : String)
    (hsel : env.selectErr = none)
    (hclaim : selectTilesToReprocess cfg env.now db.tiles_to_redraw = R :: rest)
    (hdel : env.deleteErr = none) (hq : env.queryErr = some err) :
    cycle cfg d env db =
      { db := { db with tiles_to_redraw :=
          deleteTilesToRedraw (wrapInt64 (R.X - 1)) (wrapInt64 (R.X + 1)) (wrapInt64 (R.Y - 1)) (wrapInt64 (R.Y + 1)) R.Z db.tiles_to_redraw }
        trace := [.dbSelect cfg.LastQueuedWindow cfg.MinZoomLevel cfg.MaxZoomLevel,
          .dbExecDelete (wrapInt64 (R.X - 1)) (wrapInt64 (R.X + 1)) (wrapInt64 (R.Y - 1)) (wrapInt64 (R.Y + 1)) R.Z,
          .log (.deletedRows ((db.tiles_to_redraw.length : Int) -
            ((deleteTilesToRedraw (wrapInt64 (R.X - 1)) (wrapInt64 (R.X + 1)) (wrapInt64 (R.Y - 1)) (wrapInt64 (R.Y + 1)) R.Z
              db.tiles_to_redraw).length : Int))),
          .log (.generatingTile R.Z R.X R.Y),
          .queryAggData (aggCoords R.X R.Y R.Z),
          .log (.error err), .nilPanic]
        outcome := .panicked } := by
  simp only [cycle, hsel, hclaim, hdel, hq, List.cons_append, List.nil_append]

theorem cycle_ok (cfg : Configuration) (d : Int) (env : CycleEnv) (db : Store)
    (R : MysqlTileToRedraw) (rest : List MysqlTileToRedraw)
    (hsel : env.selectErr = none)
    (hclaim : selectTilesToReprocess cfg env.now db.tiles_to_redraw = R :: rest)
    (hdel : env.deleteErr = none) (hq : env.queryErr = none) :
    cycle cfg d env db =
      { db := { db with tiles_to_redraw :=
          deleteTilesToRedraw (wrapInt64 (R.X - 1)) (wrapInt64 (R.X + 1)) (wrapInt64 (R.Y - 1)) (wrapInt64 (R.Y + 1)) R.Z db.tiles_to_redraw }
        trace := [.dbSelect cfg.LastQueuedWindow cfg.MinZoomLevel cfg.MaxZoomLevel,
          .dbExecDelete (wrapInt64 (R.X - 1)) (wrapInt64 (R.X + 1)) (wrapInt64 (R.Y - 1)) (wrapInt64 (R.Y + 1)) R.Z,
          .log (.deletedRows ((db.tiles_to_redraw.length : Int) -
            ((deleteTilesToRedraw (wrapInt64 (R.X - 1)) (wrapInt64 (R.X + 1)) (wrapInt64 (R.Y - 1)) (wrapInt64 (R.Y + 1)) R.Z
              db.tiles_to_redraw).length : Int))),
          .log (.generatingTile R.Z R.X R.Y),
          .queryAggData (aggCoords R.X R.Y R.Z),
          .log .dbSelectTook,
          .log (.usingPoints
            (stmtSelectAggData (aggCoords R.X R.Y R.Z) db.agg_zoom_19).length),
          .drawGlobalTile R.X R.Y R.Z (stmtSelectAggData (aggCoords R.X R.Y R.Z) db.agg_zoom_19),
          .log .globalTileTook,
          .drawGatewayCountTile R.X R.Y R.Z
            (stmtSelectAggData (aggCoords R.X R.Y R.Z) db.agg_zoom_19),
          .log .gatewayCountTileTook,
          .drawFogOfWarTile R.X R.Y R.Z
            (stmtSelectAggData (aggCoords R.X R.Y R.Z) db.agg_zoom_19),
          .log .fowTileTook, .log .tileTook]
        outcome := .nextIteration } := by
  simp only [cycle, hsel, hclaim, hdel, hq, List.cons_append, List.nil_append]

theorem wrapInt64_eq (v : Int) (h1 : -2 ^ 63 ≤ v) (h2 : v < 2 ^ 63) : wrapInt64 v = v := by
  unfold wrapInt64
  omega

theorem deleteWindow_eq (x y z : Int) (queue : List MysqlTileToRedraw)
    (hx1 : -2 ^ 63 < x) (hx2 : x < 2 ^ 63 - 1) (hy1 : -2 ^ 63 < y) (hy2 : y < 2 ^ 63 - 1) :
    deleteTilesToRedraw (wrapInt64 (x - 1)) (wrapInt64 (x + 1)) (wrapInt64 (y - 1))
        (wrapInt64 (y + 1)) z queue =
      deleteTilesToRedraw (x - 1) (x + 1) (y - 1) (y + 1) z queue := by
  rw [wrapInt64_eq (x - 1) (by omega) (by omega), wrapInt64_eq (x + 1) (by omega) (by omega),
    wrapInt64_eq (y - 1) (by omega) (by omega), wrapInt64_eq (y + 1) (by omega) (by omega)]

theorem mem_deleteTilesToRedraw (x y z : Int) (queue : List MysqlTileToRedraw)
    (r : MysqlTileToRedraw) :
    r ∈ deleteTilesToRedraw (x - 1) (x + 1) (y - 1) (y + 1) z queue ↔
      r ∈ queue ∧ ¬ (r.Z = z ∧ x - 1 ≤ r.X ∧ r.X ≤ x + 1 ∧ y - 1 ≤ r.Y ∧ r.Y ≤ y + 1) := by
  simp only [deleteTilesToRedraw, deleteMatches, List.mem_filter, Bool.not_eq_true',
    Bool.and_eq_false_iff, decide_eq_false_iff_not, ge_iff_le]
  constructor
  · rintro ⟨h, hn⟩
    refine ⟨h, ?_⟩
    rintro ⟨h1, h2, h3, h4, h5⟩
    tauto
  · rintro ⟨h, hn⟩
    refine ⟨h, ?_⟩
    by_contra hc
    push_neg at hc
    exact hn ⟨hc.2.2.2.2, hc.1, hc.2.1, hc.2.2.1, hc.2.2.2.1⟩

theorem deleteTilesToRedraw_eq (x y z : Int) (queue : List MysqlTileToRedraw) :
    deleteTilesToRedraw (x - 1) (x + 1) (y - 1) (y + 1) z queue =
      queue.filter (fun r => decide
        (¬ (r.Z = z ∧ x - 1 ≤ r.X ∧ r.X ≤ x + 1 ∧ y - 1 ≤ r.Y ∧ r.Y ≤ y + 1))) := by
  unfold deleteTilesToRedraw
  apply List.filter_congr
  intro r _
  simp only [deleteMatches, ge_iff_le]
  by_cases h1 : x - 1 ≤ r.X <;> by_cases h2 : r.X ≤ x + 1 <;> by_cases h3 : y - 1 ≤ r.Y <;>
    by_cases h4 : r.Y ≤ y + 1 <;> by_cases h5 : r.Z = z <;> simp [h1, h2, h3, h4, h5]


theorem cycle_sleep_eq (cfg : Configuration) (d : Int) (env : CycleEnv) (db : Store)
    (d' : Int) (h : Effect.timeSleep d' ∈ (cycle cfg d env db).trace) : d' = d := by
  cases hsel : env.selectErr with
  | some err =>
    rw [cycle_selectErr cfg d env db err hsel] at h
    simp at h
  | none =>
    cases hs : selectTilesToReprocess cfg env.now db.tiles_to_redraw with
    | nil =>
      rw [cycle_idle cfg d env db hsel hs] at h
      simpa using h
    | cons R rest =>
      cases hdel : env.deleteErr with
      | some err =>
        rw [cycle_deleteErr cfg d env db R rest err hsel hs hdel] at h
        simp at h
      | none =>
        cases hq : env.queryErr with
        | some err =>
          rw [cycle_queryErr cfg d env db R rest err hsel hs hdel hq] at h
          simp at h
        | none =>
          rw [cycle_ok cfg d env db R rest hsel hs hdel hq] at h
          simp at h

theorem loop_sleep_eq (cfg : Configuration) (d : Int) (envs : List CycleEnv) :
    ∀ (db : Store) (d' : Int), Effect.timeSleep d' ∈ (loop cfg d envs db).trace → d' = d := by
  induction envs with
  | nil =>
    intro db d' h
    simp [loop] at h
  | cons env rest ih =>
    intro db d' h
    unfold loop at h
    cases ho : (cycle cfg d env db).outcome with
    | nextIteration =>
      simp only [ho, List.mem_append] at h
      rcases h with h | h
      · exact cycle_sleep_eq cfg d env db d' h
      · exact ih _ d' h
    | mainReturned =>
      simp only [ho] at h
      exact cycle_sleep_eq cfg d env db d' h
    | panicked =>
      simp only [ho] at h
      exact cycle_sleep_eq cfg d env db d' h

/-! ## Claims on the iteration -/

/-- C2. When the claim query succeeds, the claimed request is strictly older than
`now - LastQueuedWindow`, has its zoom between `MinZoomLevel` and `MaxZoomLevel`, and no
request meeting the two conditions has an earlier `last_queued`; nothing is found, and
the iteration goes idle, exactly when no request meets the two conditions. With
(10,10,12) queued 5 minutes ago, (11,10,12) queued 3 minutes ago and a minimum age of one
minute the claimed request is (10,10,12), in either order of the rows. -/
theorem claim_returns_oldest_eligible (cfg : Configuration) (d : Int) (env : CycleEnv)
    (db : Store) (hsel : env.selectErr = none) :
    (selectTilesToReprocess cfg env.now db.tiles_to_redraw = [] ↔
      ∀ r ∈ db.tiles_to_redraw,
        ¬ (r.LastQueued < env.now - cfg.LastQueuedWindow ∧ cfg.MinZoomLevel ≤ r.Z ∧
          r.Z ≤ cfg.MaxZoomLevel)) ∧
    ((cycle cfg d env db).trace =
        [.dbSelect cfg.LastQueuedWindow cfg.MinZoomLevel cfg.MaxZoomLevel, .timeSleep d] ↔
      selectTilesToReprocess cfg env.now db.tiles_to_redraw = []) ∧
    (∀ R rest, selectTilesToReprocess cfg env.now db.tiles_to_redraw = R :: rest →
      rest = [] ∧ R ∈ db.tiles_to_redraw ∧
        R.LastQueued < env.now - cfg.LastQueuedWindow ∧
        cfg.MinZoomLevel ≤ R.Z ∧ R.Z ≤ cfg.MaxZoomLevel ∧
        (∀ r ∈ db.tiles_to_redraw,
          r.LastQueued < env.now - cfg.LastQueuedWindow ∧ cfg.MinZoomLevel ≤ r.Z ∧
            r.Z ≤ cfg.MaxZoomLevel → R.LastQueued ≤ r.LastQueued) ∧
        Effect.dbExecDelete (wrapInt64 (R.X - 1)) (wrapInt64 (R.X + 1)) (wrapInt64 (R.Y - 1)) (wrapInt64 (R.Y + 1)) R.Z ∈
          (cycle cfg d env db).trace) ∧
    selectTilesToReprocess scenarioConfiguration 1000
        [⟨1, 10, 10, 12, 700⟩, ⟨2, 11, 10, 12, 820⟩] = [⟨1, 10, 10, 12, 700⟩] ∧
    selectTilesToReprocess scenarioConfiguration 1000
        [⟨2, 11, 10, 12, 820⟩, ⟨1, 10, 10, 12, 700⟩] = [⟨1, 10, 10, 12, 700⟩] := by
  refine ⟨?_, ?_, ?_, by decide, by decide⟩
  · rw [select_eq_nil_iff]
    constructor
    · intro h r hr he
      have := (eligible_iff cfg env.now r).2 he
      rw [h r hr] at this
      exact Bool.noConfusion this
    · intro h r hr
      cases he : eligible cfg env.now r with
      | false => rfl
      | true => exact absurd ((eligible_iff cfg env.now r).1 he) (h r hr)
  · constructor
    · intro h
      cases hs : selectTilesToReprocess cfg env.now db.tiles_to_redraw with
      | nil => rfl
      | cons R rest =>
        exfalso
        cases hdel : env.deleteErr with
        | some err =>
          rw [cycle_deleteErr cfg d env db R rest err hsel hs hdel] at h
          simp at h
        | none =>
          cases hq : env.queryErr with
          | some err =>
            rw [cycle_queryErr cfg d env db R rest err hsel hs hdel hq] at h
            simp at h
          | none =>
            rw [cycle_ok cfg d env db R rest hsel hs hdel hq] at h
            simp at h
    · intro h
      rw [cycle_idle cfg d env db hsel h]
  · intro R rest hs
    obtain ⟨h1, h2, h3, h4⟩ := select_eq_cons cfg env.now db.tiles_to_redraw R rest hs
    obtain ⟨h5, h6, h7⟩ := (eligible_iff cfg env.now R).1 h3
    refine ⟨h1, h2, h5, h6, h7, ?_, ?_⟩
    · intro r hr he
      exact h4 r hr ((eligible_iff cfg env.now r).2 he)
    · cases hdel : env.deleteErr with
      | some err =>
        rw [cycle_deleteErr cfg d env db R rest err hsel hs hdel]
        simp
      | none =>
        cases hq : env.queryErr with
        | some err =>
          rw [cycle_queryErr cfg d env db R rest err hsel hs hdel hq]
          simp
        | none =>
          rw [cycle_ok cfg d env db R rest hsel hs hdel hq]
          simp

/-- Witness of C2 on the scenario store at time 1000. -/
theorem claim_returns_oldest_eligible_witness :
    selectTilesToReprocess scenarioConfiguration 1000 scenarioStore.tiles_to_redraw =
        [⟨1, 10, 10, 12, 700⟩] ∧
      Effect.dbExecDelete 9 11 9 11 12 ∈
        (cycle scenarioConfiguration 10 ⟨1000, none, none, none⟩ scenarioStore).trace :=
  ⟨by decide,
    ((claim_returns_oldest_eligible scenarioConfiguration 10 ⟨1000, none, none, none⟩
      scenarioStore rfl).2.2.1 ⟨1, 10, 10, 12, 700⟩ [] (by decide)).2.2.2.2.2.2⟩


/-- Counterexample to C3: the claimed request has x = 2^63 - 1, the largest Go `int`;
`x+1` wraps to -2^63, the window of the delete is empty, and the claimed request is
still queued after the delete has succeeded. -/
theorem c3_counterexample :
    selectTilesToReprocess scenarioConfiguration 1000
        [⟨1, 9223372036854775807, 10, 12, 700⟩] = [⟨1, 9223372036854775807, 10, 12, 700⟩] ∧
      (cycle scenarioConfiguration 10 ⟨1000, none, none, none⟩
        ⟨[⟨1, 9223372036854775807, 10, 12, 700⟩], []⟩).db.tiles_to_redraw =
          [⟨1, 9223372036854775807, 10, 12, 700⟩] ∧
      Effect.dbExecDelete 9223372036854775806 (-9223372036854775808) 9 11 12 ∈
        (cycle scenarioConfiguration 10 ⟨1000, none, none, none⟩
          ⟨[⟨1, 9223372036854775807, 10, 12, 700⟩], []⟩).trace := by
  refine ⟨by decide, by decide, ?_⟩
  rw [cycle_ok scenarioConfiguration 10 ⟨1000, none, none, none⟩
    ⟨[⟨1, 9223372036854775807, 10, 12, 700⟩], []⟩ ⟨1, 9223372036854775807, 10, 12, 700⟩ []
    rfl (by decide) rfl rfl]
  simp [wrapInt64]

/-- C3, amended. For a claimed request R = (x, y, z) with -2^63 < x < 2^63 - 1 and
-2^63 < y < 2^63 - 1 (so that x-1, x+1, y-1, y+1 do not wrap around), when the overlap
delete succeeds the queue after the iteration is the queue before it without the rows
(x', y', z') with z' = z, x-1 <= x' <= x+1 and y-1 <= y' <= y+1: R itself is gone, no
row of the window remains, every other row is still queued. -/
theorem overlap_delete_removes_window (cfg : Configuration) (d : Int) (env : CycleEnv)
    (db : Store) (R : MysqlTileToRedraw) (rest : List MysqlTileToRedraw)
    (hsel : env.selectErr = none)
    (hclaim : selectTilesToReprocess cfg env.now db.tiles_to_redraw = R :: rest)
    (hdel : env.deleteErr = none)
    (hx1 : -2 ^ 63 < R.X) (hx2 : R.X < 2 ^ 63 - 1)
    (hy1 : -2 ^ 63 < R.Y) (hy2 : R.Y < 2 ^ 63 - 1) :
    (cycle cfg d env db).db.tiles_to_redraw =
        db.tiles_to_redraw.filter (fun r => decide
          (¬ (r.Z = R.Z ∧ R.X - 1 ≤ r.X ∧ r.X ≤ R.X + 1 ∧ R.Y - 1 ≤ r.Y ∧ r.Y ≤ R.Y + 1))) ∧
      R ∉ (cycle cfg d env db).db.tiles_to_redraw ∧
      (∀ r, r ∈ (cycle cfg d env db).db.tiles_to_redraw ↔
        r ∈ db.tiles_to_redraw ∧
          ¬ (r.Z = R.Z ∧ R.X - 1 ≤ r.X ∧ r.X ≤ R.X + 1 ∧ R.Y - 1 ≤ r.Y ∧ r.Y ≤ R.Y + 1)) := by
  have hq : (cycle cfg d env db).db.tiles_to_redraw =
      deleteTilesToRedraw (R.X - 1) (R.X + 1) (R.Y - 1) (R.Y + 1) R.Z db.tiles_to_redraw := by
    rw [← deleteWindow_eq R.X R.Y R.Z db.tiles_to_redraw hx1 hx2 hy1 hy2]
    cases hq : env.queryErr with
    | some err => rw [cycle_queryErr cfg d env db R rest err hsel hclaim hdel hq]
    | none => rw [cycle_ok cfg d env db R rest hsel hclaim hdel hq]
  rw [hq]
  refine ⟨deleteTilesToRedraw_eq _ _ _ _, ?_, fun r => mem_deleteTilesToRedraw _ _ _ _ r⟩
  rw [mem_deleteTilesToRedraw]
  rintro ⟨-, hn⟩
  exact hn ⟨rfl, by omega, by omega, by omega, by omega⟩

/-- Witness of C3 (amended) on the scenario store: claiming (10,10,12) also removes
(11,10,12). -/
theorem overlap_delete_removes_window_witness :
    (cycle scenarioConfiguration 10 ⟨1000, none, none, none⟩ scenarioStore).db.tiles_to_redraw
      = [] :=
  (overlap_delete_removes_window scenarioConfiguration 10 ⟨1000, none, none, none⟩
    scenarioStore ⟨1, 10, 10, 12, 700⟩ [] rfl (by decide) rfl (by decide) (by decide)
    (by decide) (by decide)).1.trans (by decide)

/-- Counterexample to C4: a failing claim query ends the loop; the second poll of the
run is never made. -/
theorem c4_counterexample :
    (cycle myConfiguration 10 ⟨1000, some "connection lost", none, none⟩
        scenarioStore).outcome = .mainReturned ∧
      loop myConfiguration 10
          [⟨1000, some "connection lost", none, none⟩, ⟨1010, none, none, none⟩]
          scenarioStore =
        { db := scenarioStore
          trace := [.dbSelect 1 1 19, .fmtPrintln "connection lost"]
          outcome := .mainReturned } := by
  constructor
  · rfl
  · rfl

/-- C4, amended. A failing claim query is printed and `main` returns: the loop ends
with no sleep and no further poll, the store untouched. A failing overlap delete or
aggregate query is logged. -/
theorem store_error_handling (cfg : Configuration) (d : Int) (env : CycleEnv) (db : Store)
    (err : String) :
    (env.selectErr = some err → ∀ rest : List CycleEnv,
      loop cfg d (env :: rest) db =
        { db := db
          trace := [.dbSelect cfg.LastQueuedWindow cfg.MinZoomLevel cfg.MaxZoomLevel,
            .fmtPrintln err]
          outcome := .mainReturned }) ∧
    (env.selectErr = none → env.deleteErr = some err →
      ∀ R rest, selectTilesToReprocess cfg env.now db.tiles_to_redraw = R :: rest →
        Effect.log (.error err) ∈ (cycle cfg d env db).trace) ∧
    (env.selectErr = none → env.deleteErr = none → env.queryErr = some err →
      ∀ R rest, selectTilesToReprocess cfg env.now db.tiles_to_redraw = R :: rest →
        Effect.log (.error err) ∈ (cycle cfg d env db).trace) := by
  refine ⟨?_, ?_, ?_⟩
  · intro hsel rest
    simp only [loop, cycle_selectErr cfg d env db err hsel]
  · intro hsel hdel R rest hs
    rw [cycle_deleteErr cfg d env db R rest err hsel hs hdel]
    simp
  · intro hsel hdel hq R rest hs
    rw [cycle_queryErr cfg d env db R rest err hsel hs hdel hq]
    simp

/-- Witness of C4 (amended): an aggregate query failing on the scenario store. -/
theorem store_error_handling_witness :
    Effect.log (.error "timeout") ∈
      (cycle scenarioConfiguration 10 ⟨1000, none, none, some "timeout"⟩ scenarioStore).trace :=
  (store_error_handling scenarioConfiguration 10 ⟨1000, none, none, some "timeout"⟩
    scenarioStore "timeout").2.2 rfl rfl rfl ⟨1, 10, 10, 12, 700⟩ [] (by decide)

/-- Counterexample to C5: the aggregate query fails while (10,10,12) is processed, and
the request is no longer queued when the iteration ends. -/
theorem c5_counterexample :
    selectTilesToReprocess scenarioConfiguration 1000 scenarioStore.tiles_to_redraw =
        [⟨1, 10, 10, 12, 700⟩] ∧
      (cycle scenarioConfiguration 10 ⟨1000, none, none, some "timeout"⟩
        scenarioStore).db.tiles_to_redraw = [] := by
  constructor
  · decide
  · decide

/-- C5, amended. When the claim query fails the store is unchanged at the end of the
iteration. When the overlap delete has succeeded and the aggregate query fails, a
claimed request (x, y, z) with -2^63 < x < 2^63 - 1 and -2^63 < y < 2^63 - 1 is no
longer queued: the queue is the one left by the delete, without the rows of the 3x3
window of the claimed request. -/
theorem failed_cycle_queue (cfg : Configuration) (d : Int) (env : CycleEnv) (db : Store)
    (err : String) :
    (env.selectErr = some err → (cycle cfg d env db).db = db) ∧
    (env.selectErr = none → env.deleteErr = none → env.queryErr = some err →
      ∀ R rest, selectTilesToReprocess cfg env.now db.tiles_to_redraw = R :: rest →
        -2 ^ 63 < R.X → R.X < 2 ^ 63 - 1 → -2 ^ 63 < R.Y → R.Y < 2 ^ 63 - 1 →
        R ∉ (cycle cfg d env db).db.tiles_to_redraw ∧
        (∀ r, r ∈ (cycle cfg d env db).db.tiles_to_redraw ↔
          r ∈ db.tiles_to_redraw ∧
            ¬ (r.Z = R.Z ∧ R.X - 1 ≤ r.X ∧ r.X ≤ R.X + 1 ∧
              R.Y - 1 ≤ r.Y ∧ r.Y ≤ R.Y + 1))) := by
  refine ⟨?_, ?_⟩
  · intro hsel
    rw [cycle_selectErr cfg d env db err hsel]
  · intro hsel hdel hq R rest hs hx1 hx2 hy1 hy2
    have hdb : (cycle cfg d env db).db.tiles_to_redraw =
        deleteTilesToRedraw (R.X - 1) (R.X + 1) (R.Y - 1) (R.Y + 1) R.Z
          db.tiles_to_redraw := by
      rw [← deleteWindow_eq R.X R.Y R.Z db.tiles_to_redraw hx1 hx2 hy1 hy2,
        cycle_queryErr cfg d env db R rest err hsel hs hdel hq]
    rw [hdb]
    refine ⟨?_, fun r => mem_deleteTilesToRedraw _ _ _ _ r⟩
    rw [mem_deleteTilesToRedraw]
    rintro ⟨-, hn⟩
    exact hn ⟨rfl, by omega, by omega, by omega, by omega⟩

/-- Witness of C5 (amended): the aggregate query failing on the scenario store. -/
theorem failed_cycle_queue_witness :
    (⟨1, 10, 10, 12, 700⟩ : MysqlTileToRedraw) ∉
      (cycle scenarioConfiguration 10 ⟨1000, none, none, some "timeout"⟩
        scenarioStore).db.tiles_to_redraw :=
  ((failed_cycle_queue scenarioConfiguration 10 ⟨1000, none, none, some "timeout"⟩
    scenarioStore "timeout").2 rfl rfl rfl ⟨1, 10, 10, 12, 700⟩ [] (by decide)
    (by decide) (by decide) (by decide) (by decide)).1

/-- C6. In an iteration that claims a request R, the store calls and render calls are
made in the order claim query, overlap delete, aggregate query, global heatmap, gateway
count, fog of war, the render calls receiving the rows read by the aggregate query:
whatever store call fails, the calls made are an initial part of that sequence, and when
no store call fails they are the whole sequence. -/
theorem cycle_effect_order (cfg : Configuration) (d now : Int) (db : Store)
    (R : MysqlTileToRedraw) (rest : List MysqlTileToRedraw)
    (hclaim : selectTilesToReprocess cfg now db.tiles_to_redraw = R :: rest) :
    (∀ selectErr deleteErr queryErr : Option String,
      (cycle cfg d ⟨now, selectErr, deleteErr, queryErr⟩ db).trace.filter Effect.isCall <+:
        [.dbSelect cfg.LastQueuedWindow cfg.MinZoomLevel cfg.MaxZoomLevel,
          .dbExecDelete (wrapInt64 (R.X - 1)) (wrapInt64 (R.X + 1)) (wrapInt64 (R.Y - 1)) (wrapInt64 (R.Y + 1)) R.Z,
          .queryAggData (aggCoords R.X R.Y R.Z),
          .drawGlobalTile R.X R.Y R.Z (stmtSelectAggData (aggCoords R.X R.Y R.Z) db.agg_zoom_19),
          .drawGatewayCountTile R.X R.Y R.Z
            (stmtSelectAggData (aggCoords R.X R.Y R.Z) db.agg_zoom_19),
          .drawFogOfWarTile R.X R.Y R.Z
            (stmtSelectAggData (aggCoords R.X R.Y R.Z) db.agg_zoom_19)]) ∧
    (cycle cfg d ⟨now, none, none, none⟩ db).trace.filter Effect.isCall =
      [.dbSelect cfg.LastQueuedWindow cfg.MinZoomLevel cfg.MaxZoomLevel,
        .dbExecDelete (wrapInt64 (R.X - 1)) (wrapInt64 (R.X + 1)) (wrapInt64 (R.Y - 1)) (wrapInt64 (R.Y + 1)) R.Z,
        .queryAggData (aggCoords R.X R.Y R.Z),
        .drawGlobalTile R.X R.Y R.Z (stmtSelectAggData (aggCoords R.X R.Y R.Z) db.agg_zoom_19),
        .drawGatewayCountTile R.X R.Y R.Z
          (stmtSelectAggData (aggCoords R.X R.Y R.Z) db.agg_zoom_19),
        .drawFogOfWarTile R.X R.Y R.Z
          (stmtSelectAggData (aggCoords R.X R.Y R.Z) db.agg_zoom_19)] := by
  have ok : ∀ env : CycleEnv, env.now = now → env.selectErr = none → env.deleteErr = none →
      env.queryErr = none →
      (cycle cfg d env db).trace.filter Effect.isCall =
        [.dbSelect cfg.LastQueuedWindow cfg.MinZoomLevel cfg.MaxZoomLevel,
          .dbExecDelete (wrapInt64 (R.X - 1)) (wrapInt64 (R.X + 1)) (wrapInt64 (R.Y - 1)) (wrapInt64 (R.Y + 1)) R.Z,
          .queryAggData (aggCoords R.X R.Y R.Z),
          .drawGlobalTile R.X R.Y R.Z (stmtSelectAggData (aggCoords R.X R.Y R.Z) db.agg_zoom_19),
          .drawGatewayCountTile R.X R.Y R.Z
            (stmtSelectAggData (aggCoords R.X R.Y R.Z) db.agg_zoom_19),
          .drawFogOfWarTile R.X R.Y R.Z
            (stmtSelectAggData (aggCoords R.X R.Y R.Z) db.agg_zoom_19)] := by
    intro env hnow hsel hdel hq
    rw [cycle_ok cfg d env db R rest hsel (hnow ▸ hclaim) hdel hq]
    simp [List.filter, Effect.isCall]
  refine ⟨?_, ok ⟨now, none, none, none⟩ rfl rfl rfl rfl⟩
  intro selectErr deleteErr queryErr
  cases selectErr with
  | some err =>
    rw [cycle_selectErr cfg d ⟨now, some err, deleteErr, queryErr⟩ db err rfl]
    simp [List.filter, Effect.isCall, List.prefix_cons_inj]
  | none =>
    cases deleteErr with
    | some err =>
      rw [cycle_deleteErr cfg d ⟨now, none, some err, queryErr⟩ db R rest err rfl hclaim rfl]
      simp [List.filter, Effect.isCall, List.prefix_cons_inj]
    | none =>
      cases queryErr with
      | some err =>
        rw [cycle_queryErr cfg d ⟨now, none, none, some err⟩ db R rest err rfl hclaim rfl rfl]
        simp [List.filter, Effect.isCall, List.prefix_cons_inj]
      | none =>
        rw [ok ⟨now, none, none, none⟩ rfl rfl rfl rfl]

/-- Witness of C6 on the scenario store. -/
theorem cycle_effect_order_witness :
    (cycle scenarioConfiguration 10 ⟨1000, none, none, none⟩ scenarioStore).trace.filter
        Effect.isCall =
      [.dbSelect 60 1 19, .dbExecDelete 9 11 9 11 12, .queryAggData (aggCoords 10 10 12),
        .drawGlobalTile 10 10 12
          (stmtSelectAggData (aggCoords 10 10 12) scenarioStore.agg_zoom_19),
        .drawGatewayCountTile 10 10 12
          (stmtSelectAggData (aggCoords 10 10 12) scenarioStore.agg_zoom_19),
        .drawFogOfWarTile 10 10 12
          (stmtSelectAggData (aggCoords 10 10 12) scenarioStore.agg_zoom_19)] :=
  (cycle_effect_order scenarioConfiguration 10 1000 scenarioStore ⟨1, 10, 10, 12, 700⟩ []
    (by decide)).2

/-- C7. In an iteration whose claim query succeeds and finds no eligible request, the
coordinator sleeps once, for the duration parsed from `SleepDuration` before the loop
started, and the loop goes on with the next claim query; the iteration makes no delete,
no aggregate query and no render call and leaves the store unchanged. Every sleep of a
run has that same duration. -/
theorem idle_cycle_sleeps_once (parseDuration : String → Except String Int)
    (cfg : Configuration) (d : Int) (env : CycleEnv) (rest : List CycleEnv) (db : Store)
    (hparse : parseDuration cfg.SleepDuration = .ok d)
    (hsel : env.selectErr = none)
    (hnone : ∀ r ∈ db.tiles_to_redraw, eligible cfg env.now r = false) :
    cycle cfg d env db =
        { db := db
          trace := [.dbSelect cfg.LastQueuedWindow cfg.MinZoomLevel cfg.MaxZoomLevel,
            .timeSleep d]
          outcome := .nextIteration } ∧
      main parseDuration cfg (env :: rest) db =
        { db := (main parseDuration cfg rest db).db
          trace := [.dbSelect cfg.LastQueuedWindow cfg.MinZoomLevel cfg.MaxZoomLevel,
            .timeSleep d] ++ (main parseDuration cfg rest db).trace
          outcome := (main parseDuration cfg rest db).outcome } ∧
      (∀ (envs : List CycleEnv) (db' : Store) (d' : Int),
        Effect.timeSleep d' ∈ (main parseDuration cfg envs db').trace → d' = d) := by
  have hidle := cycle_idle cfg d env db hsel ((select_eq_nil_iff cfg env.now _).2 hnone)
  refine ⟨hidle, ?_, ?_⟩
  · simp only [main, hparse, loop, hidle]
  · intro envs db' d' h
    simp only [main, hparse] at h
    exact loop_sleep_eq cfg d envs db' d' h

/-- Witness of C7: two idle polls of an empty queue, ten seconds apart. -/
theorem idle_cycle_sleeps_once_witness :
    (main (fun _ => .ok 10) myConfiguration
        [⟨1000, none, none, none⟩, ⟨1010, none, none, none⟩] ⟨[], []⟩).trace =
      [.dbSelect 1 1 19, .timeSleep 10, .dbSelect 1 1 19, .timeSleep 10] :=
  (congrArg Result.trace
    (idle_cycle_sleeps_once (fun _ => .ok 10) myConfiguration 10 ⟨1000, none, none, none⟩
      [⟨1010, none, none, none⟩] ⟨[], []⟩ rfl rfl (by decide)).2.1).trans (by decide)

end HeatmapTileGenerator
